import Mathlib

/-!
Shallow embedding of `main.py` of the Bless network bot (Python port).

The program registers nodes against a remote HTTP service, starts a session,
and then polls (health check, ping, status check) on a fixed interval,
counting consecutive failing cycles and stopping at a threshold.

Modelling conventions:
* An HTTP exchange is abstracted by `Transport`: either the underlying
  `requests` call raises a transport/network error (`Transport.err`), or a
  response arrives (`Transport.resp r`) carrying a status code, the parsed
  JSON body (`none` when `response.json()` would raise), and the raw text.
* Each Python function becomes a Lean function from its arguments and the
  `Transport` outcome(s) of its HTTP calls to the `Request` it builds, the
  log lines it prints, and an `Except PErr` result (`Except.error` models a
  Python exception propagating to the caller).
* The unbounded `while True` loop is run over a finite list of per-cycle
  environments (fuel); exhausting the list means the loop would continue.
-/

namespace Bless

/-- A JSON value, as produced by `response.json()`. -/
inductive Json where
  | null : Json
  | bool (b : Bool) : Json
  | num (n : Int) : Json
  | str (s : String) : Json
  | arr (elems : List Json) : Json
  | obj (fields : List (String × Json)) : Json

/-- Python `dict.get(key)` on a parsed JSON value: `none` when the key is
absent or the value is not an object (where Python would raise
`AttributeError` on `.get`, callers of this model handle that case
separately). -/
def Json.get : Json → String → Option Json
  | .obj fields, k => fields.lookup k
  | _, _ => none

/-- Python `==` between an optional JSON value and a string literal: true
exactly when the value is present and is that string. -/
def json_is_str (j : Option Json) (s : String) : Bool :=
  match j with
  | some (.str t) => t == s
  | _ => false

/-- Whether a parsed JSON value is an object (a Python `dict`, on which
`.get` is a valid attribute). -/
def Json.isObj : Json → Bool
  | .obj _ => true
  | _ => false

/-- An HTTP response as seen through the `requests` library: its status
code, its body parsed as JSON (`none` when `response.json()` raises), and
its raw text. -/
structure HttpResponse where
  statusCode : Nat
  body : Option Json
  text : String

/-- `requests.Response.ok`: true exactly when the status code is below 400. -/
def response_ok (r : HttpResponse) : Bool := r.statusCode < 400

/-- Outcome of one HTTP call: either the `requests` call itself raises a
transport/network error, or a response arrives. -/
inductive Transport where
  | err : Transport
  | resp (r : HttpResponse) : Transport

/-- A Python exception as observed by callers: a transport/network error
from `requests`, or a JSON-parse failure re-raised after logging (carrying
the raw response text that was logged). -/
inductive PErr where
  | transport : PErr
  | parse (text : String) : PErr
deriving DecidableEq

/-- One log line (`print` call), with the dynamic data it interpolates;
timestamps are omitted. -/
inductive LogLine where
  | processing (node_id hardware_id ip : String)
  | registrationResponse (node_id : String) (data : Json)
  | registrationParseFail (node_id : String) (text : String)
  | startSessionResponse (node_id : String) (data : Json)
  | startSessionParseFail (node_id : String) (text : String)
  | pingResponse (node_id : String) (data : Json)
  | pingParseFail (node_id : String) (text : String)
  | statusOK (node_id : String)
  | statusFailed (node_id : String) (code : Nat)
  | healthOK
  | healthFailed (data : Json)
  | healthError
  | regSessionError (node_id : String) (e : PErr)
  | pingError (node_id : String) (e : PErr) (count : Nat)
  | maxPingErrors (node_id : String)

/-- The HTTP request a network function hands to `requests`. -/
structure Request where
  method : String
  url : String
  headers : List (String × String)
  jsonBody : Option Json
  proxies : Option (List (String × String))

-- Global variables and settings (main.py lines 11-23).

def api_base_url : String := "https://gateway-run.bls.dev/api/v1"

def ping_interval : Nat := 120

def max_ping_errors : Nat := 3

def common_headers : List (String × String) :=
  [("User-Agent", "Mozilla/5.0 (Windows NT 10.0; Win64; x64) AppleWebKit/537.36 (KHTML, like Gecko) Chrome/114.0.0.0 Safari/537.36"),
   ("Accept", "application/json, text/plain, */*"),
   ("Accept-Language", "en-US,en;q=0.9")]

/-- `proxies = "http": proxy, "https": proxy if proxy else None` (Python
truthiness: `None` and the empty string both yield `None`). -/
def mk_proxies : Option String → Option (List (String × String))
  | none => none
  | some p => if p = "" then none else some [("http", p), ("https", p)]

/-- `generate_random_hardware_info` (main.py lines 30-32); the eight
characters drawn by `random.choices` are taken as a parameter. -/
def generate_random_hardware_info (randomChars : String) : Json :=
  .obj [("random", .str randomChars)]

-- Network functions (main.py lines 42-124).

/-- `register_node` (main.py lines 42-66): POST to `/nodes/node_id` with
bearer auth, content type, and the JSON payload; logs and returns the
parsed response, or logs the raw text and re-raises on a parse failure. -/
def register_node (node_id hardware_id ip_address auth_token : String)
    (hardware_info : Json) (proxy : Option String) (t : Transport) :
    Request × List LogLine × Except PErr Json :=
  let req : Request :=
    { method := "POST"
      url := api_base_url ++ "/nodes/" ++ node_id
      headers := common_headers ++
        [("Content-Type", "application/json"),
         ("Authorization", "Bearer " ++ auth_token)]
      jsonBody := some (.obj
        [("ipAddress", .str ip_address),
         ("hardwareId", .str hardware_id),
         ("hardwareInfo", hardware_info),
         ("extensionVersion", .str "0.1.7")])
      proxies := mk_proxies proxy }
  match t with
  | .err => (req, [], .error .transport)
  | .resp r =>
    match r.body with
    | some data => (req, [.registrationResponse node_id data], .ok data)
    | none => (req, [.registrationParseFail node_id r.text], .error (.parse r.text))

/-- `start_session` (main.py lines 68-83): POST to
`/nodes/node_id/start-session` with bearer auth and no body; same
parse-or-raise contract as registration. -/
def start_session (node_id auth_token : String) (proxy : Option String)
    (t : Transport) : Request × List LogLine × Except PErr Json :=
  let req : Request :=
    { method := "POST"
      url := api_base_url ++ "/nodes/" ++ node_id ++ "/start-session"
      headers := common_headers ++ [("Authorization", "Bearer " ++ auth_token)]
      jsonBody := none
      proxies := mk_proxies proxy }
  match t with
  | .err => (req, [], .error .transport)
  | .resp r =>
    match r.body with
    | some data => (req, [.startSessionResponse node_id data], .ok data)
    | none => (req, [.startSessionParseFail node_id r.text], .error (.parse r.text))

/-- `ping_node` (main.py lines 85-100): POST to `/nodes/node_id/ping` with
bearer auth; same parse-or-raise contract as registration. -/
def ping_node (node_id auth_token : String) (proxy : Option String)
    (t : Transport) : Request × List LogLine × Except PErr Json :=
  let req : Request :=
    { method := "POST"
      url := api_base_url ++ "/nodes/" ++ node_id ++ "/ping"
      headers := common_headers ++ [("Authorization", "Bearer " ++ auth_token)]
      jsonBody := none
      proxies := mk_proxies proxy }
  match t with
  | .err => (req, [], .error .transport)
  | .resp r =>
    match r.body with
    | some data => (req, [.pingResponse node_id data], .ok data)
    | none => (req, [.pingParseFail node_id r.text], .error (.parse r.text))

/-- `check_node_status` (main.py lines 102-110): GET `/nodes/node_id`
without auth; a transport error from `requests.get` propagates, any
received response is only logged (OK iff `response.ok`) and nothing is
returned. -/
def check_node_status (node_id : String) (proxy : Option String)
    (t : Transport) : Request × List LogLine × Except PErr Unit :=
  let req : Request :=
    { method := "GET"
      url := api_base_url ++ "/nodes/" ++ node_id
      headers := common_headers
      jsonBody := none
      proxies := mk_proxies proxy }
  match t with
  | .err => (req, [], .error .transport)
  | .resp r =>
    if response_ok r then (req, [.statusOK node_id], .ok ())
    else (req, [.statusFailed node_id r.statusCode], .ok ())

/-- `check_service_health` (main.py lines 112-124): GET the fixed health
URL; a transport error from `requests.get` propagates; once a response
arrives, a JSON-parse failure or a non-dict body (whose `.get` raises
`AttributeError`) is caught and logged, and the parsed `status` field is
compared to `"ok"` only to choose a log line. Never raises after a
response is received. -/
def check_service_health (proxy : Option String) (t : Transport) :
    Request × List LogLine × Except PErr Unit :=
  let req : Request :=
    { method := "GET"
      url := "https://gateway-run.bls.dev/health"
      headers := common_headers
      jsonBody := none
      proxies := mk_proxies proxy }
  match t with
  | .err => (req, [], .error .transport)
  | .resp r =>
    match r.body with
    | none => (req, [.healthError], .ok ())
    | some data =>
      match data with
      | .obj fields =>
        if json_is_str ((Json.obj fields).get "status") "ok" then
          (req, [.healthOK], .ok ())
        else (req, [.healthFailed (.obj fields)], .ok ())
      | _ => (req, [.healthError], .ok ())

-- Node processing (main.py lines 127-155).

/-- Node configuration record: `node.get("nodeId")`, `node.get("hardwareId")`,
and the optional `node.get("proxy")`. -/
structure NodeConfig where
  nodeId : String
  hardwareId : String
  proxy : Option String

/-- One user of the configuration: `user.get("usertoken")` and
`user.get("nodes", [])`. -/
structure UserConfig where
  usertoken : String
  nodes : List NodeConfig

/-- `proxy = node.get("proxy") if USE_PROXY else None` (main.py line 131). -/
def resolve_proxy (use_proxy : Bool) (node_proxy : Option String) : Option String :=
  if use_proxy then node_proxy else none

/-- The three network calls a poll-loop iteration can make, plus the two
lifecycle calls, tagged for traces. -/
inductive CallName where
  | register : CallName
  | startSession : CallName
  | health : CallName
  | ping : CallName
  | status : CallName
deriving DecidableEq

/-- The `Transport` outcomes offered to one iteration of the polling loop
(ping and status outcomes are consumed only if execution reaches them). -/
structure CycleEnv where
  health : Transport
  ping : Transport
  status : Transport

/-- Whether a `Transport` is a transport/network error raised by `requests`. -/
def transport_errs : Transport → Bool
  | .err => true
  | .resp _ => false

/-- Whether a JSON-returning call (`register_node`, `start_session`,
`ping_node`) raises on this transport outcome: a transport error, or a
response whose body is not parseable JSON. -/
def call_raises : Transport → Bool
  | .err => true
  | .resp r => r.body.isNone

/-- Whether one poll-loop iteration's `try` block raises: the health
check's `requests.get` raises, or `ping_node` raises (transport or parse),
or the status check's `requests.get` raises. Parse failures in the health
check and non-success statuses in the status check are swallowed and do
not make the cycle raise. -/
def cycle_raises (c : CycleEnv) : Bool :=
  transport_errs c.health || call_raises c.ping || transport_errs c.status

/-- The body of the poll loop's `try` (main.py lines 145-147):
`check_service_health(proxy)`, then `ping_node(node_id, user_token, proxy)`,
then `check_node_status(node_id, proxy)`, stopping at the first call that
raises. Returns the calls made (with the proxy argument passed to each),
the log lines, and the propagated exception if any. -/
def poll_cycle (node_id user_token : String) (proxy : Option String)
    (c : CycleEnv) : List (CallName × Option String) × List LogLine × Except PErr Unit :=
  let hres := check_service_health proxy c.health
  match hres.2.2 with
  | .error e => ([(.health, proxy)], hres.2.1, .error e)
  | .ok _ =>
    let pres := ping_node node_id user_token proxy c.ping
    match pres.2.2 with
    | .error e => ([(.health, proxy), (.ping, proxy)], hres.2.1 ++ pres.2.1, .error e)
    | .ok _ =>
      let sres := check_node_status node_id proxy c.status
      ([(.health, proxy), (.ping, proxy), (.status, proxy)],
       hres.2.1 ++ pres.2.1 ++ sres.2.1, sres.2.2)

/-- Trace of one executed poll-loop iteration: the calls made (with the
proxy passed to each), whether the `try` block raised, the value of
`ping_errors` after the iteration's update, whether
`time.sleep(ping_interval)` was reached at the end of the iteration, and
the log lines printed. -/
structure CycleRecord where
  calls : List (CallName × Option String)
  raised : Bool
  errorsAfter : Nat
  slept : Bool
  logs : List LogLine

/-- How the polling loop ended. -/
inductive LoopExit where
  | restarted : LoopExit
  | outOfFuel : LoopExit
deriving DecidableEq

/-- The `while True` polling loop (main.py lines 143-155), run over a list
of per-iteration environments: on a successful `try` reset `ping_errors`
to 0; on an exception increment it, log the error with the running count,
and `break` (before the sleep) once it reaches `max_ping_errors`; otherwise
sleep and continue. Exhausting the environment list means the loop would
keep running (`LoopExit.outOfFuel`). -/
def poll_loop (node_id user_token : String) (proxy : Option String) :
    Nat → List CycleEnv → List CycleRecord × LoopExit
  | _, [] => ([], .outOfFuel)
  | ping_errors, c :: rest =>
    let pc := poll_cycle node_id user_token proxy c
    match pc.2.2 with
    | .ok _ =>
      let next := poll_loop node_id user_token proxy 0 rest
      (⟨pc.1, false, 0, true, pc.2.1⟩ :: next.1, next.2)
    | .error e =>
      let errs := ping_errors + 1
      if max_ping_errors ≤ errs then
        ([⟨pc.1, true, errs, false,
           pc.2.1 ++ [.pingError node_id e errs, .maxPingErrors node_id]⟩], .restarted)
      else
        let next := poll_loop node_id user_token proxy errs rest
        (⟨pc.1, true, errs, true, pc.2.1 ++ [.pingError node_id e errs]⟩ :: next.1, next.2)

/-- How `process_node` ended: a registration/start-session exception was
caught and the function returned, or the poll loop broke at the error
threshold, or the finite environment ran out while polling. -/
inductive ProcExit where
  | fatalError : ProcExit
  | restarted : ProcExit
  | outOfFuel : ProcExit
deriving DecidableEq

/-- The `Transport` outcomes offered to one run of `process_node`. -/
structure NodeEnv where
  registerT : Transport
  sessionT : Transport
  cycles : List CycleEnv

/-- Observable trace of one `process_node` run. -/
structure ProcTrace where
  proxy : Option String
  ip_address : String
  registerRequest : Request
  calls : List (CallName × Option String)
  enteredPolling : Bool
  records : List CycleRecord
  logs : List LogLine
  exit : ProcExit

/-- `process_node` (main.py lines 127-155): resolve the proxy once, use
the placeholder IP, register and start a session (any exception there is
caught, logged, and ends the run), then enter the polling loop. -/
def process_node (node : NodeConfig) (user_token : String)
    (hardware_info : Json) (use_proxy : Bool) (env : NodeEnv) : ProcTrace :=
  let node_id := node.nodeId
  let hardware_id := node.hardwareId
  let proxy := resolve_proxy use_proxy node.proxy
  let ip_address := "127.0.0.1"
  let procLog := LogLine.processing node_id hardware_id ip_address
  let rres :=
    register_node node_id hardware_id ip_address user_token hardware_info proxy env.registerT
  match rres.2.2 with
  | .error e =>
    { proxy := proxy, ip_address := ip_address, registerRequest := rres.1
      calls := [(.register, proxy)]
      enteredPolling := false, records := []
      logs := procLog :: rres.2.1 ++ [.regSessionError node_id e]
      exit := .fatalError }
  | .ok _ =>
    let sres := start_session node_id user_token proxy env.sessionT
    match sres.2.2 with
    | .error e =>
      { proxy := proxy, ip_address := ip_address, registerRequest := rres.1
        calls := [(.register, proxy), (.startSession, proxy)]
        enteredPolling := false, records := []
        logs := procLog :: rres.2.1 ++ sres.2.1 ++ [.regSessionError node_id e]
        exit := .fatalError }
    | .ok _ =>
      let next := poll_loop node_id user_token proxy 0 env.cycles
      { proxy := proxy, ip_address := ip_address, registerRequest := rres.1
        calls := (.register, proxy) :: (.startSession, proxy) ::
          (next.1.map CycleRecord.calls).flatten
        enteredPolling := true, records := next.1
        logs := procLog :: rres.2.1 ++ sres.2.1 ++ (next.1.map CycleRecord.logs).flatten
        exit := match next.2 with
          | .restarted => .restarted
          | .outOfFuel => .outOfFuel }

-- Main execution (main.py lines 158-176).

/-- `run_all` (main.py lines 158-176), orchestration part: the list of
`(node, user_token, hardware_info)` argument triples of the threads it
spawns, one per (user, node) pair, where the hardware info is the
deterministic one-entry mapping built at line 170. -/
def run_all_spawns (config : List UserConfig) : List (NodeConfig × String × Json) :=
  (config.map fun user =>
    user.nodes.map fun node =>
      (node, user.usertoken, Json.obj [("hardwareId", Json.str node.hardwareId)])).flatten

/-- Whether an `Except` result models a raised exception. -/
def except_raises : Except PErr Unit → Bool
  | .error _ => true
  | .ok _ => false

/-- Number of `ping_node` invocations recorded in a list of poll-cycle
traces. -/
def ping_attempts (recs : List CycleRecord) : Nat :=
  (recs.map CycleRecord.calls).flatten.countP fun x => decide (x.1 = CallName.ping)

-- Sample concrete inputs, used by witnesses and counterexamples.

/-- A health-check response whose body parses to a dict with status ok. -/
def sampleHealthOk : Transport :=
  .resp ⟨200, some (.obj [("status", .str "ok")]), "health"⟩

/-- A response whose body parses to JSON (`null`). -/
def sampleJsonOk : Transport := .resp ⟨200, some .null, "null"⟩

/-- A response whose body is not parseable JSON. -/
def sampleNotJson : Transport := .resp ⟨200, none, "<html>"⟩

/-- A poll-cycle environment in which all three calls complete: health ok,
ping returns JSON, status 200. -/
def sampleGoodCycle : CycleEnv := ⟨sampleHealthOk, sampleJsonOk, sampleJsonOk⟩

/-- A node configuration with no proxy. -/
def sampleNode : NodeConfig := ⟨"node-1", "hw-1", none⟩

/-- A node environment whose registration response is not parseable JSON. -/
def sampleFatalEnv : NodeEnv := ⟨sampleNotJson, sampleJsonOk, []⟩

/-- A configuration of one user with one node. -/
def sampleConfig : List UserConfig := [⟨"tok", [sampleNode]⟩]

/-- The spawn triple `run_all` builds for `sampleConfig`. -/
def sampleEntry : NodeConfig × String × Json :=
  (sampleNode, "tok", Json.obj [("hardwareId", Json.str "hw-1")])

/-- A poll-cycle environment in which health and status succeed but the
ping response body is not parseable JSON, so `ping_node` raises. -/
def samplePingFailCycle : CycleEnv := ⟨sampleHealthOk, sampleNotJson, sampleJsonOk⟩

-- Helper lemmas shared by the claim theorems.

lemma check_service_health_resp (p : Option String) (r : HttpResponse) :
    (check_service_health p (Transport.resp r)).2.2 = Except.ok () := by
  obtain ⟨code, body, text⟩ := r
  cases body with
  | none => rfl
  | some d =>
    cases d <;> first
      | rfl
      | (simp only [check_service_health]; split <;> rfl)

lemma check_node_status_resp (id : String) (p : Option String) (r : HttpResponse) :
    (check_node_status id p (Transport.resp r)).2.2 = Except.ok () := by
  unfold check_node_status
  dsimp only
  split <;> rfl

lemma ping_node_resp_ok (id tok : String) (p : Option String) (r : HttpResponse)
    (j : Json) (hb : r.body = some j) :
    (ping_node id tok p (Transport.resp r)).2.2 = Except.ok j := by
  simp [ping_node, hb]

lemma ping_node_resp_err (id tok : String) (p : Option String) (r : HttpResponse)
    (hb : r.body = none) :
    (ping_node id tok p (Transport.resp r)).2.2 = Except.error (.parse r.text) := by
  simp [ping_node, hb]

lemma register_node_raise (nid hid ip tok : String) (info : Json) (p : Option String)
    (t : Transport) (h : call_raises t = true) :
    ∃ e, (register_node nid hid ip tok info p t).2.2 = Except.error e := by
  cases t with
  | err => exact ⟨.transport, rfl⟩
  | resp r =>
    cases hb : r.body with
    | none => exact ⟨.parse r.text, by simp [register_node, hb]⟩
    | some j => simp [call_raises, hb] at h

lemma register_node_ok (nid hid ip tok : String) (info : Json) (p : Option String)
    (t : Transport) (h : call_raises t = false) :
    ∃ j, (register_node nid hid ip tok info p t).2.2 = Except.ok j := by
  cases t with
  | err => simp [call_raises] at h
  | resp r =>
    cases hb : r.body with
    | none => simp [call_raises, hb] at h
    | some j => exact ⟨j, by simp [register_node, hb]⟩

lemma start_session_raise (nid tok : String) (p : Option String)
    (t : Transport) (h : call_raises t = true) :
    ∃ e, (start_session nid tok p t).2.2 = Except.error e := by
  cases t with
  | err => exact ⟨.transport, rfl⟩
  | resp r =>
    cases hb : r.body with
    | none => exact ⟨.parse r.text, by simp [start_session, hb]⟩
    | some j => simp [call_raises, hb] at h

lemma start_session_ok (nid tok : String) (p : Option String)
    (t : Transport) (h : call_raises t = false) :
    ∃ j, (start_session nid tok p t).2.2 = Except.ok j := by
  cases t with
  | err => simp [call_raises] at h
  | resp r =>
    cases hb : r.body with
    | none => simp [call_raises, hb] at h
    | some j => exact ⟨j, by simp [start_session, hb]⟩

/-- Full characterization of one poll cycle: it raises exactly when
`cycle_raises` says so, and the calls it makes are health, then ping
(unless health raised), then status (unless health or ping raised), all
with the same proxy. -/
lemma poll_cycle_spec (id tok : String) (p : Option String) (c : CycleEnv) :
    except_raises (poll_cycle id tok p c).2.2 = cycle_raises c ∧
    (poll_cycle id tok p c).1 =
      (if transport_errs c.health then [(.health, p)]
       else if call_raises c.ping then [(.health, p), (.ping, p)]
       else [(.health, p), (.ping, p), (.status, p)]) := by
  obtain ⟨th, tp, ts⟩ := c
  cases th with
  | err =>
    simp [poll_cycle, check_service_health, cycle_raises, transport_errs, except_raises]
  | resp rh =>
    have hh := check_service_health_resp p rh
    cases tp with
    | err =>
      simp [poll_cycle, hh, ping_node, cycle_raises, transport_errs, call_raises,
        except_raises]
    | resp rp =>
      cases hb : rp.body with
      | none =>
        have hp := ping_node_resp_err id tok p rp hb
        simp [poll_cycle, hh, hp, cycle_raises, transport_errs, call_raises, hb,
          except_raises]
      | some j =>
        have hp := ping_node_resp_ok id tok p rp j hb
        cases ts with
        | err =>
          simp [poll_cycle, hh, hp, check_node_status, cycle_raises, transport_errs,
            call_raises, hb, except_raises]
        | resp rs =>
          have hs := check_node_status_resp id p rs
          simp [poll_cycle, hh, hp, hs, cycle_raises, transport_errs, call_raises, hb,
            except_raises]

lemma poll_cycle_no_raise (id tok : String) (p : Option String) (c : CycleEnv)
    (h : cycle_raises c = false) :
    (poll_cycle id tok p c).2.2 = Except.ok () := by
  have hs := (poll_cycle_spec id tok p c).1
  rw [h] at hs
  cases hres : (poll_cycle id tok p c).2.2 with
  | error e => rw [hres] at hs; simp [except_raises] at hs
  | ok u => cases u; rfl

lemma poll_cycle_raise (id tok : String) (p : Option String) (c : CycleEnv)
    (h : cycle_raises c = true) :
    ∃ e, (poll_cycle id tok p c).2.2 = Except.error e := by
  have hs := (poll_cycle_spec id tok p c).1
  rw [h] at hs
  cases hres : (poll_cycle id tok p c).2.2 with
  | error e => exact ⟨e, rfl⟩
  | ok u => rw [hres] at hs; simp [except_raises] at hs

lemma poll_cycle_calls_shapes (id tok : String) (p : Option String) (c : CycleEnv) :
    (poll_cycle id tok p c).1 = [(.health, p)] ∨
    (poll_cycle id tok p c).1 = [(.health, p), (.ping, p)] ∨
    (poll_cycle id tok p c).1 = [(.health, p), (.ping, p), (.status, p)] := by
  rw [(poll_cycle_spec id tok p c).2]
  split
  · exact .inl rfl
  · split
    · exact .inr (.inl rfl)
    · exact .inr (.inr rfl)

lemma poll_cycle_ping_count (id tok : String) (p : Option String) (c : CycleEnv)
    (hh : transport_errs c.health = false) :
    ((poll_cycle id tok p c).1.countP fun x => decide (x.1 = CallName.ping)) = 1 := by
  rw [(poll_cycle_spec id tok p c).2, hh]
  by_cases hp : call_raises c.ping = true <;>
    simp [hp, List.countP_cons, List.countP_nil]

-- One-step unfolding lemmas for the polling loop.

lemma poll_loop_cons_ok (id tok : String) (p : Option String) (n : Nat)
    (c : CycleEnv) (rest : List CycleEnv) (h : cycle_raises c = false) :
    poll_loop id tok p n (c :: rest) =
      (⟨(poll_cycle id tok p c).1, false, 0, true, (poll_cycle id tok p c).2.1⟩
         :: (poll_loop id tok p 0 rest).1, (poll_loop id tok p 0 rest).2) := by
  simp [poll_loop, poll_cycle_no_raise id tok p c h]

lemma poll_loop_cons_err_break (id tok : String) (p : Option String) (n : Nat)
    (c : CycleEnv) (rest : List CycleEnv) (e : PErr)
    (he : (poll_cycle id tok p c).2.2 = Except.error e)
    (hn : max_ping_errors ≤ n + 1) :
    poll_loop id tok p n (c :: rest) =
      ([⟨(poll_cycle id tok p c).1, true, n + 1, false,
         (poll_cycle id tok p c).2.1 ++ [.pingError id e (n + 1), .maxPingErrors id]⟩],
       .restarted) := by
  simp [poll_loop, he, hn]

lemma poll_loop_cons_err_cont (id tok : String) (p : Option String) (n : Nat)
    (c : CycleEnv) (rest : List CycleEnv) (e : PErr)
    (he : (poll_cycle id tok p c).2.2 = Except.error e)
    (hn : ¬ max_ping_errors ≤ n + 1) :
    poll_loop id tok p n (c :: rest) =
      (⟨(poll_cycle id tok p c).1, true, n + 1, true,
         (poll_cycle id tok p c).2.1 ++ [.pingError id e (n + 1)]⟩
         :: (poll_loop id tok p (n + 1) rest).1, (poll_loop id tok p (n + 1) rest).2) := by
  simp [poll_loop, he, hn]

/-- Every record produced by the polling loop makes its calls in the order
health, ping, status (with the loop's proxy, stopping at the first raising
call), and reaches the end-of-iteration sleep exactly when the iteration
did not `break` at the error threshold. -/
lemma poll_loop_rec_shape (id tok : String) (p : Option String) (envs : List CycleEnv) :
    ∀ (n : Nat) (rec : CycleRecord), rec ∈ (poll_loop id tok p n envs).1 →
      (rec.calls = [(.health, p)] ∨ rec.calls = [(.health, p), (.ping, p)] ∨
       rec.calls = [(.health, p), (.ping, p), (.status, p)]) ∧
      (rec.slept = true ↔ ¬(rec.raised = true ∧ max_ping_errors ≤ rec.errorsAfter)) := by
  induction envs with
  | nil => intro n rec h; simp [poll_loop] at h
  | cons c rest ih =>
    intro n rec h
    by_cases hc : cycle_raises c = true
    · obtain ⟨e, he⟩ := poll_cycle_raise id tok p c hc
      by_cases hn : max_ping_errors ≤ n + 1
      · rw [poll_loop_cons_err_break id tok p n c rest e he hn] at h
        rw [List.mem_singleton] at h
        subst h
        exact ⟨poll_cycle_calls_shapes id tok p c, by simp [hn]⟩
      · rw [poll_loop_cons_err_cont id tok p n c rest e he hn] at h
        rcases List.mem_cons.mp h with h | h
        · subst h
          exact ⟨poll_cycle_calls_shapes id tok p c, by simp [hn]⟩
        · exact ih (n + 1) rec h
    · rw [poll_loop_cons_ok id tok p n c rest (by simpa using hc)] at h
      rcases List.mem_cons.mp h with h | h
      · subst h
        exact ⟨poll_cycle_calls_shapes id tok p c, by simp⟩
      · exact ih 0 rec h

/-- The request `register_node` hands to `requests.post` is the same
whatever the outcome of the exchange. -/
lemma register_node_request (nid hid ip tok : String) (info : Json) (p : Option String)
    (t : Transport) :
    (register_node nid hid ip tok info p t).1 =
      { method := "POST", url := api_base_url ++ "/nodes/" ++ nid
        headers := common_headers ++
          [("Content-Type", "application/json"), ("Authorization", "Bearer " ++ tok)]
        jsonBody := some (.obj [("ipAddress", .str ip), ("hardwareId", .str hid),
          ("hardwareInfo", info), ("extensionVersion", .str "0.1.7")])
        proxies := mk_proxies p } := by
  cases t with
  | err => rfl
  | resp r => cases hb : r.body <;> simp [register_node, hb]

/-- Every call recorded by a poll-loop cycle carries the loop's proxy. -/
lemma poll_loop_rec_calls_proxy (id tok : String) (p : Option String)
    (envs : List CycleEnv) (n : Nat) (rec : CycleRecord)
    (h : rec ∈ (poll_loop id tok p n envs).1) :
    ∀ x ∈ rec.calls, x.2 = p := by
  obtain ⟨hs, -⟩ := poll_loop_rec_shape id tok p envs n rec h
  intro x hx
  rcases hs with hs | hs | hs
  · rw [hs] at hx
    rw [List.mem_singleton.mp hx]
  · rw [hs] at hx
    rcases List.mem_cons.mp hx with rfl | hx
    · rfl
    · rw [List.mem_singleton.mp hx]
  · rw [hs] at hx
    rcases List.mem_cons.mp hx with rfl | hx
    · rfl
    rcases List.mem_cons.mp hx with rfl | hx
    · rfl
    · rw [List.mem_singleton.mp hx]

/-- Full case analysis of one `process_node` run: the proxy is resolved
once, the placeholder IP is used, the registration request is the one
`register_node` builds, and the run either aborts on a raising `register`,
aborts on a raising `startSession` (after a successful `register`), or
enters the polling loop. -/
lemma process_node_cases (node : NodeConfig) (tok : String) (info : Json)
    (up : Bool) (env : NodeEnv) :
    (process_node node tok info up env).proxy = resolve_proxy up node.proxy ∧
    (process_node node tok info up env).ip_address = "127.0.0.1" ∧
    (process_node node tok info up env).registerRequest =
      (register_node node.nodeId node.hardwareId "127.0.0.1" tok info
        (resolve_proxy up node.proxy) env.registerT).1 ∧
    ((call_raises env.registerT = true ∧
        (process_node node tok info up env).calls =
          [(.register, resolve_proxy up node.proxy)] ∧
        (process_node node tok info up env).enteredPolling = false ∧
        (process_node node tok info up env).records = [] ∧
        (process_node node tok info up env).exit = .fatalError ∧
        ∃ e, LogLine.regSessionError node.nodeId e ∈ (process_node node tok info up env).logs) ∨
     (call_raises env.registerT = false ∧ call_raises env.sessionT = true ∧
        (process_node node tok info up env).calls =
          [(.register, resolve_proxy up node.proxy),
           (.startSession, resolve_proxy up node.proxy)] ∧
        (process_node node tok info up env).enteredPolling = false ∧
        (process_node node tok info up env).records = [] ∧
        (process_node node tok info up env).exit = .fatalError ∧
        ∃ e, LogLine.regSessionError node.nodeId e ∈ (process_node node tok info up env).logs) ∨
     (call_raises env.registerT = false ∧ call_raises env.sessionT = false ∧
        (process_node node tok info up env).enteredPolling = true ∧
        (process_node node tok info up env).records =
          (poll_loop node.nodeId tok (resolve_proxy up node.proxy) 0 env.cycles).1 ∧
        (process_node node tok info up env).calls =
          (.register, resolve_proxy up node.proxy)
            :: (.startSession, resolve_proxy up node.proxy)
            :: ((process_node node tok info up env).records.map CycleRecord.calls).flatten)) := by
  cases hreg : call_raises env.registerT with
  | true =>
    obtain ⟨e, he⟩ := register_node_raise node.nodeId node.hardwareId "127.0.0.1" tok info
      (resolve_proxy up node.proxy) env.registerT hreg
    refine ⟨?_, ?_, ?_, .inl ⟨rfl, ?_, ?_, ?_, ?_, ⟨e, ?_⟩⟩⟩ <;>
      simp [process_node, he]
  | false =>
    obtain ⟨j1, he⟩ := register_node_ok node.nodeId node.hardwareId "127.0.0.1" tok info
      (resolve_proxy up node.proxy) env.registerT hreg
    cases hses : call_raises env.sessionT with
    | true =>
      obtain ⟨e, hs⟩ := start_session_raise node.nodeId tok
        (resolve_proxy up node.proxy) env.sessionT hses
      refine ⟨?_, ?_, ?_, .inr (.inl ⟨rfl, rfl, ?_, ?_, ?_, ?_, ⟨e, ?_⟩⟩)⟩ <;>
        simp [process_node, he, hs]
    | false =>
      obtain ⟨j2, hs⟩ := start_session_ok node.nodeId tok
        (resolve_proxy up node.proxy) env.sessionT hses
      refine ⟨?_, ?_, ?_, .inr (.inr ⟨rfl, rfl, ?_, ?_, ?_⟩)⟩ <;>
        simp [process_node, he, hs]

-- Claim theorems.

/-- C1: in the polling phase, after a poll cycle in which all three calls
(health check, ping, status check) complete without raising, the
consecutive-failure counter is reset to 0; after a cycle in which at least
one of the three raises, it is incremented by exactly 1; and the rest of
the run is exactly the loop continued with that updated counter (ending in
a restart when it reaches the threshold), so no other update to the
counter occurs. -/
theorem C1_failure_counter_updates (id tok : String) (p : Option String) (n : Nat)
    (c : CycleEnv) (rest : List CycleEnv) :
    ∃ rec tail,
      (poll_loop id tok p n (c :: rest)).1 = rec :: tail ∧
      rec.raised = cycle_raises c ∧
      rec.errorsAfter = (if cycle_raises c then n + 1 else 0) ∧
      tail = (if cycle_raises c ∧ max_ping_errors ≤ n + 1 then []
              else (poll_loop id tok p (if cycle_raises c then n + 1 else 0) rest).1) ∧
      (poll_loop id tok p n (c :: rest)).2 =
        (if cycle_raises c ∧ max_ping_errors ≤ n + 1 then LoopExit.restarted
         else (poll_loop id tok p (if cycle_raises c then n + 1 else 0) rest).2) := by
  by_cases hc : cycle_raises c = true
  · obtain ⟨e, he⟩ := poll_cycle_raise id tok p c hc
    by_cases hn : max_ping_errors ≤ n + 1
    · rw [poll_loop_cons_err_break id tok p n c rest e he hn]
      exact ⟨_, _, rfl, by simp [hc], by simp [hc], by simp [hc, hn], by simp [hc, hn]⟩
    · rw [poll_loop_cons_err_cont id tok p n c rest e he hn]
      exact ⟨_, _, rfl, by simp [hc], by simp [hc], by simp [hc, hn], by simp [hc, hn]⟩
  · rw [Bool.not_eq_true] at hc
    rw [poll_loop_cons_ok id tok p n c rest hc]
    exact ⟨_, _, rfl, by simp [hc], by simp [hc], by simp [hc], by simp [hc]⟩

/-- C2: starting from a zero counter, after exactly three consecutive poll
cycles that each contain at least one raising call, the loop produces
exactly three cycle records (no further polling, whatever environments
remain), logs the maximum-ping-errors restart notice on the third cycle,
and exits restarted; when no cycle failed at the health check itself
(e.g. ping raising with health and status fine), exactly 3 ping attempts
were made. -/
theorem C2_restart_after_three_failing_cycles (id tok : String) (p : Option String)
    (c1 c2 c3 : CycleEnv) (rest : List CycleEnv)
    (h1 : cycle_raises c1 = true) (h2 : cycle_raises c2 = true)
    (h3 : cycle_raises c3 = true) :
    ∃ r1 r2 r3,
      poll_loop id tok p 0 (c1 :: c2 :: c3 :: rest) = ([r1, r2, r3], .restarted) ∧
      LogLine.maxPingErrors id ∈ r3.logs ∧
      (transport_errs c1.health = false → transport_errs c2.health = false →
        transport_errs c3.health = false → ping_attempts [r1, r2, r3] = 3) := by
  obtain ⟨e1, he1⟩ := poll_cycle_raise id tok p c1 h1
  obtain ⟨e2, he2⟩ := poll_cycle_raise id tok p c2 h2
  obtain ⟨e3, he3⟩ := poll_cycle_raise id tok p c3 h3
  rw [poll_loop_cons_err_cont id tok p 0 c1 (c2 :: c3 :: rest) e1 he1 (by decide),
    poll_loop_cons_err_cont id tok p 1 c2 (c3 :: rest) e2 he2 (by decide),
    poll_loop_cons_err_break id tok p 2 c3 rest e3 he3 (by decide)]
  refine ⟨_, _, _, rfl, by simp, ?_⟩
  intro hh1 hh2 hh3
  simp [ping_attempts, List.countP_append,
    poll_cycle_ping_count id tok p c1 hh1, poll_cycle_ping_count id tok p c2 hh2,
    poll_cycle_ping_count id tok p c3 hh3]

/-- C2 witness: with health and status succeeding and every ping response
unparseable, three cycles produce the restart with exactly 3 ping
attempts. -/
theorem C2_restart_after_three_failing_cycles_witness :
    (cycle_raises samplePingFailCycle = true ∧
      transport_errs samplePingFailCycle.health = false) ∧
    ∃ r1 r2 r3,
      poll_loop "node-1" "tok" none 0
          [samplePingFailCycle, samplePingFailCycle, samplePingFailCycle] =
        ([r1, r2, r3], .restarted) ∧
      LogLine.maxPingErrors "node-1" ∈ r3.logs ∧
      (transport_errs samplePingFailCycle.health = false →
        transport_errs samplePingFailCycle.health = false →
        transport_errs samplePingFailCycle.health = false →
        ping_attempts [r1, r2, r3] = 3) :=
  ⟨⟨by decide, by decide⟩,
   C2_restart_after_three_failing_cycles "node-1" "tok" none
     samplePingFailCycle samplePingFailCycle samplePingFailCycle []
     (by decide) (by decide) (by decide)⟩

/-- C3 counterexample: contrary to the claim that `checkServiceHealth` and
`checkNodeStatus` never raise to the caller, a transport/network error in
their underlying `requests.get` (which sits outside the `try` blocks)
propagates as an exception from both. -/
theorem C3_counterexample :
    (check_service_health none Transport.err).2.2 = Except.error PErr.transport ∧
    (check_node_status "node-1" none Transport.err).2.2 = Except.error PErr.transport :=
  ⟨rfl, rfl⟩

/-- C3 amended: once an HTTP response is received, `checkServiceHealth`
and `checkNodeStatus` never raise (parse failures and non-success statuses
become log lines), but transport/network errors from their underlying GET
calls do propagate; hence a poll cycle raises (incrementing the counter)
exactly on a health-check transport error, a ping failure (transport or
parse), or a status-check transport error. -/
theorem C3_amended_swallow_only_after_response (id tok : String) (p : Option String)
    (r1 r2 : HttpResponse) (c : CycleEnv) :
    (check_service_health p (Transport.resp r1)).2.2 = Except.ok () ∧
    (check_node_status id p (Transport.resp r2)).2.2 = Except.ok () ∧
    (check_service_health p Transport.err).2.2 = Except.error PErr.transport ∧
    (check_node_status id p Transport.err).2.2 = Except.error PErr.transport ∧
    except_raises (poll_cycle id tok p c).2.2 = cycle_raises c :=
  ⟨check_service_health_resp p r1, check_node_status_resp id p r2, rfl, rfl,
   (poll_cycle_spec id tok p c).1⟩

/-- C4 counterexample: contrary to the claim that the 120-second sleep
happens unconditionally once per cycle including the threshold cycle, the
iteration that reaches the failure threshold `break`s out of the loop
before `time.sleep` is reached: in a three-failing-cycle run, the third
record did not sleep. -/
theorem C4_counterexample :
    ((poll_loop "node-1" "tok" none 0
        [samplePingFailCycle, samplePingFailCycle, samplePingFailCycle]).1.map
      CycleRecord.slept) = [true, true, false] := by decide

/-- C4 amended: every poll-loop iteration calls checkServiceHealth, then
ping, then checkNodeStatus, in that strict order (stopping at the first
raising call), and reaches the fixed 120-second sleep at the end of the
iteration in every case except the iteration on which the failure
threshold is reached, which `break`s before the sleep. -/
theorem C4_amended_call_order_and_sleep (id tok : String) (p : Option String)
    (n : Nat) (envs : List CycleEnv) :
    ping_interval = 120 ∧
    (poll_loop id tok p n envs).1.Forall (fun rec =>
      (rec.calls = [(.health, p)] ∨ rec.calls = [(.health, p), (.ping, p)] ∨
       rec.calls = [(.health, p), (.ping, p), (.status, p)]) ∧
      (rec.slept = true ↔ ¬(rec.raised = true ∧ max_ping_errors ≤ rec.errorsAfter))) := by
  refine ⟨rfl, ?_⟩
  rw [List.forall_iff_forall_mem]
  intro rec h
  exact poll_loop_rec_shape id tok p envs n rec h

/-- C5: if `register` or `startSession` raises, the runner logs the error
and exits without ever entering the polling loop; a raising `register`
means `startSession` is never invoked; `register` is invoked exactly once
and no poll cycle ever runs, so neither failure is retried. -/
theorem C5_fatal_registration_failures (node : NodeConfig) (tok : String)
    (info : Json) (up : Bool) (env : NodeEnv)
    (h : call_raises env.registerT = true ∨ call_raises env.sessionT = true) :
    (process_node node tok info up env).enteredPolling = false ∧
    (process_node node tok info up env).records = [] ∧
    (process_node node tok info up env).exit = .fatalError ∧
    ((CallName.startSession, (process_node node tok info up env).proxy) ∈
        (process_node node tok info up env).calls ↔
      call_raises env.registerT = false) ∧
    ((process_node node tok info up env).calls.countP
        fun x => decide (x.1 = CallName.register)) = 1 ∧
    ∃ e, LogLine.regSessionError node.nodeId e ∈ (process_node node tok info up env).logs := by
  obtain ⟨hp, hip, hreq, hcase⟩ := process_node_cases node tok info up env
  rcases hcase with ⟨hreg, hcalls, hpoll, hrecs, hexit, hlog⟩ |
    ⟨hreg, hses, hcalls, hpoll, hrecs, hexit, hlog⟩ | ⟨hreg, hses, -, -, -⟩
  · refine ⟨hpoll, hrecs, hexit, ?_, ?_, hlog⟩
    · rw [hcalls, hp]
      simp [hreg]
    · rw [hcalls]
      simp [List.countP_cons]
  · refine ⟨hpoll, hrecs, hexit, ?_, ?_, hlog⟩
    · rw [hcalls, hp]
      simp [hreg]
    · rw [hcalls]
      simp [List.countP_cons]
  · rcases h with h | h
    · rw [hreg] at h
      exact absurd h (by simp)
    · rw [hses] at h
      exact absurd h (by simp)

/-- C5 witness: a node whose registration response is unparseable JSON
aborts before polling, with `startSession` never invoked. -/
theorem C5_fatal_registration_failures_witness :
    (call_raises sampleFatalEnv.registerT = true ∨
      call_raises sampleFatalEnv.sessionT = true) ∧
    ((process_node sampleNode "tok" Json.null false sampleFatalEnv).enteredPolling = false ∧
     (process_node sampleNode "tok" Json.null false sampleFatalEnv).records = [] ∧
     (process_node sampleNode "tok" Json.null false sampleFatalEnv).exit = .fatalError ∧
     ((CallName.startSession,
         (process_node sampleNode "tok" Json.null false sampleFatalEnv).proxy) ∈
        (process_node sampleNode "tok" Json.null false sampleFatalEnv).calls ↔
       call_raises sampleFatalEnv.registerT = false) ∧
     ((process_node sampleNode "tok" Json.null false sampleFatalEnv).calls.countP
        fun x => decide (x.1 = CallName.register)) = 1 ∧
     ∃ e, LogLine.regSessionError sampleNode.nodeId e ∈
       (process_node sampleNode "tok" Json.null false sampleFatalEnv).logs) :=
  ⟨.inl (by decide),
   C5_fatal_registration_failures sampleNode "tok" Json.null false sampleFatalEnv
     (.inl (by decide))⟩

/-- C6: proxy resolution is a pure function of the global flag and the
node's configured proxy (`false` yields no proxy, `true` yields the
node's value), it is resolved once per runner, and the resolved value is
the proxy argument of every API call the runner makes. -/
theorem C6_proxy_resolution (X : Option String) (node : NodeConfig) (tok : String)
    (info : Json) (up : Bool) (env : NodeEnv) :
    resolve_proxy false X = none ∧
    resolve_proxy true X = X ∧
    (process_node node tok info up env).proxy = resolve_proxy up node.proxy ∧
    (process_node node tok info up env).calls.Forall
      (fun x => x.2 = (process_node node tok info up env).proxy) := by
  obtain ⟨hp, hip, hreq, hcase⟩ := process_node_cases node tok info up env
  refine ⟨rfl, rfl, hp, ?_⟩
  rw [List.forall_iff_forall_mem]
  intro x hx
  rw [hp]
  rcases hcase with ⟨-, hcalls, -⟩ | ⟨-, -, hcalls, -⟩ | ⟨-, -, -, hrecs, hcalls⟩
  · rw [hcalls] at hx
    rw [List.mem_singleton.mp hx]
  · rw [hcalls] at hx
    rcases List.mem_cons.mp hx with rfl | hx
    · rfl
    · rw [List.mem_singleton.mp hx]
  · rw [hcalls] at hx
    rcases List.mem_cons.mp hx with rfl | hx
    · rfl
    rcases List.mem_cons.mp hx with rfl | hx
    · rfl
    rw [List.mem_flatten] at hx
    obtain ⟨l, hl, hxl⟩ := hx
    rw [List.mem_map] at hl
    obtain ⟨rec, hrec, rfl⟩ := hl
    rw [hrecs] at hrec
    exact poll_loop_rec_calls_proxy node.nodeId tok (resolve_proxy up node.proxy)
      env.cycles 0 rec hrec x hxl

/-- C7: `register_node` POSTs to `/nodes/node_id` with bearer auth and the
JSON body of ipAddress, hardwareId, hardwareInfo and extensionVersion;
given a response, it returns the parsed payload verbatim exactly when the
body parses as JSON, and raises (with the raw response text) exactly when
it does not. -/
theorem C7_register_contract (nid hid ip tok : String) (info : Json)
    (p : Option String) (r : HttpResponse) :
    (register_node nid hid ip tok info p (.resp r)).1.method = "POST" ∧
    (register_node nid hid ip tok info p (.resp r)).1.url =
      api_base_url ++ "/nodes/" ++ nid ∧
    ("Authorization", "Bearer " ++ tok) ∈
      (register_node nid hid ip tok info p (.resp r)).1.headers ∧
    (register_node nid hid ip tok info p (.resp r)).1.jsonBody =
      some (.obj [("ipAddress", .str ip), ("hardwareId", .str hid),
        ("hardwareInfo", info), ("extensionVersion", .str "0.1.7")]) ∧
    (∀ j, (register_node nid hid ip tok info p (.resp r)).2.2 = Except.ok j ↔
      r.body = some j) ∧
    ((register_node nid hid ip tok info p (.resp r)).2.2 =
        Except.error (.parse r.text) ↔ r.body = none) := by
  have hq := register_node_request nid hid ip tok info p (.resp r)
  refine ⟨by rw [hq], by rw [hq], by rw [hq]; simp [common_headers], by rw [hq], ?_, ?_⟩
  · intro j
    cases hb : r.body with
    | none => simp [register_node, hb]
    | some j0 => simp [register_node, hb]
  · cases hb : r.body with
    | none => simp [register_node, hb]
    | some j0 => simp [register_node, hb]

/-- C8 counterexample: contrary to the claim that `check_node_status`
returns a boolean determined by the HTTP status, the function returns no
value (Python `None`, modelled as the unit result): at a success status
(200) and a non-success status (500) the returned value is the identical
`()`, while the two statuses are distinguished only in the emitted log
line. -/
theorem C8_counterexample :
    (check_node_status "node-1" none (.resp ⟨200, some .null, ""⟩)).2.2 =
      (check_node_status "node-1" none (.resp ⟨500, some .null, ""⟩)).2.2 ∧
    (check_node_status "node-1" none (.resp ⟨200, some .null, ""⟩)).2.1 ≠
      (check_node_status "node-1" none (.resp ⟨500, some .null, ""⟩)).2.1 := by
  refine ⟨rfl, ?_⟩
  simp [check_node_status, response_ok]

/-- C8 amended: `check_node_status` GETs `/nodes/node_id` and returns no
value; given any response, the OK/failed outcome it reports in its log
line is determined purely by whether the HTTP status code is in the
success range (`response.ok`, i.e. status below 400), no body is parsed,
and no error is raised on a non-success status (it is logged only). -/
theorem C8_status_check_pure (id : String) (p : Option String) (r : HttpResponse) :
    (check_node_status id p (.resp r)).1.method = "GET" ∧
    (check_node_status id p (.resp r)).1.url = api_base_url ++ "/nodes/" ++ id ∧
    (check_node_status id p (.resp r)).1.jsonBody = none ∧
    (check_node_status id p (.resp r)).2.2 = Except.ok () ∧
    (check_node_status id p (.resp r)).2.1 =
      (if response_ok r then [LogLine.statusOK id]
       else [LogLine.statusFailed id r.statusCode]) ∧
    response_ok r = decide (r.statusCode < 400) := by
  by_cases hok : response_ok r = true <;>
    refine ⟨?_, ?_, ?_, ?_, ?_, rfl⟩ <;> simp [check_node_status, hok]

/-- C9: the ipAddress field sent in the registration payload is the fixed
placeholder "127.0.0.1" for every node, user, proxy setting and
environment. -/
theorem C9_fixed_ip_address (node : NodeConfig) (tok : String) (info : Json)
    (up : Bool) (env : NodeEnv) :
    (process_node node tok info up env).ip_address = "127.0.0.1" ∧
    ∃ fields,
      (process_node node tok info up env).registerRequest.jsonBody =
        some (Json.obj fields) ∧
      (Json.obj fields).get "ipAddress" = some (.str "127.0.0.1") := by
  obtain ⟨hp, hip, hreq, -⟩ := process_node_cases node tok info up env
  refine ⟨hip, ?_⟩
  rw [hreq, register_node_request]
  exact ⟨_, rfl, rfl⟩

/-- Every spawned runner's hardware info is the deterministic one-entry
mapping keyed by the node's hardware identifier. -/
lemma run_all_spawns_info (config : List UserConfig) :
    ∀ entry ∈ run_all_spawns config,
      entry.2.2 = Json.obj [("hardwareId", Json.str entry.1.hardwareId)] := by
  intro entry h
  unfold run_all_spawns at h
  rw [List.mem_flatten] at h
  obtain ⟨l, hl, hel⟩ := h
  rw [List.mem_map] at hl
  obtain ⟨user, huser, rfl⟩ := hl
  rw [List.mem_map] at hel
  obtain ⟨nd, hnd, rfl⟩ := hel
  rfl

/-- C10: the hardware info the orchestrator passes to each spawned runner
is exactly the one-entry mapping keyed by the node's hardware identifier;
it is never an output of the random generator (whose single key is
"random"), and two spawned runners with equal hardware identifiers receive
equal hardware info. -/
theorem C10_deterministic_hardware_info (config : List UserConfig)
    (entry : NodeConfig × String × Json) (h : entry ∈ run_all_spawns config) :
    entry.2.2 = Json.obj [("hardwareId", Json.str entry.1.hardwareId)] ∧
    (∀ s, entry.2.2 ≠ generate_random_hardware_info s) ∧
    ∀ entry2 ∈ run_all_spawns config,
      entry2.1.hardwareId = entry.1.hardwareId → entry2.2.2 = entry.2.2 := by
  have h1 := run_all_spawns_info config entry h
  refine ⟨h1, ?_, ?_⟩
  · intro s hcontra
    rw [h1] at hcontra
    simp [generate_random_hardware_info] at hcontra
  · intro entry2 h2 heq
    rw [run_all_spawns_info config entry2 h2, heq, h1]

/-- C10 witness: the single (user, node) pair of `sampleConfig` is spawned
with exactly the deterministic hardware info. -/
theorem C10_deterministic_hardware_info_witness :
    sampleEntry ∈ run_all_spawns sampleConfig ∧
    (sampleEntry.2.2 = Json.obj [("hardwareId", Json.str sampleEntry.1.hardwareId)] ∧
     (∀ s, sampleEntry.2.2 ≠ generate_random_hardware_info s) ∧
     ∀ entry2 ∈ run_all_spawns sampleConfig,
       entry2.1.hardwareId = sampleEntry.1.hardwareId → entry2.2.2 = sampleEntry.2.2) :=
  ⟨List.Mem.head _,
   C10_deterministic_hardware_info sampleConfig sampleEntry (List.Mem.head _)⟩

end Bless
